import Mathlib

/-!
Verification development for the AppleHealth-iWatch ETL pipeline
(`src/scripts/extract_data.py`, `src/scripts/transform_data.py`).

Modelling conventions (shallow embedding):
* A pandas DataFrame is a `List` of row structures, in row order.
* A timestamp is an `Int` (epoch seconds); a value that pandas failed to
  parse (`pd.to_datetime(..., errors='coerce')` / `pd.to_numeric(...,
  errors='coerce')` producing `NaT`/`NaN`) is `none`.
* Numeric cell values are `ℚ`.
* `Series.dt.date` truncation to the calendar date is floor division of the
  epoch-second timestamp by 86400; the `year`/`month`/`day` columns are
  computed from that day number with the standard civil-calendar algorithm.
* `groupby(key)` sorts the distinct keys ascending and aggregates each
  group, which is modelled by `sortedDates` plus a per-date aggregation.
* A pandas operation that raises is modelled by `Except Unit`:
  - `transform_step_data` compares the raw `count` column with an integer
    without coercing it; when the CSV column contains a non-numeric entry
    the column has object dtype and `df['count'] <= 100000` raises
    `TypeError`.  A row whose `count` is `none` models such an entry.
  - `transform_sleep_data` builds `merged_df` from the merged session list;
    when that list is empty the `start_date`/`end_date` columns have object
    dtype and `(end - start).dt.total_seconds()` raises `AttributeError`.
-/

/-- Calendar date (day number) of an epoch-second timestamp, as produced by
`Series.dt.date`: floor division by the number of seconds in a day. -/
def dateOf (t : Int) : Int := t.fdiv 86400

/-- Civil calendar (year, month, day) of a day number counted from
1970-01-01, by the standard days-from-civil inverse algorithm. -/
def civilFromDays (z0 : Int) : Int × Int × Int :=
  let z : Int := z0 + 719468
  let era : Int := z.fdiv 146097
  let doe : Int := z - era * 146097
  let yoe : Int := (doe - doe.fdiv 1460 + doe.fdiv 36524 - doe.fdiv 146096).fdiv 365
  let y : Int := yoe + era * 400
  let doy : Int := doe - (365 * yoe + yoe.fdiv 4 - yoe.fdiv 100)
  let mp : Int := (5 * doy + 2).fdiv 153
  let d : Int := doy - (153 * mp + 2).fdiv 5 + 1
  let m : Int := mp + (if mp < 10 then 3 else -9)
  (y + (if m ≤ 2 then 1 else 0), m, d)

/-- Insert a date into a sorted duplicate-free list of dates, keeping it
sorted and duplicate-free. -/
def insertDate (d : Int) : List Int → List Int
  | [] => [d]
  | x :: xs => if d < x then d :: x :: xs else if d = x then x :: xs else x :: insertDate d xs

/-- The distinct group keys of a `groupby`, ascending, as pandas emits them. -/
def sortedDates (l : List Int) : List Int := l.foldr insertDate []

/-- One intermediate heart row (`Heart_Data.csv`): `created_at`, `value`.
`none` models a cell that `pd.to_datetime` / `pd.to_numeric` fails to parse. -/
structure HeartRow where
  created_at : Option Int
  value : Option ℚ
deriving DecidableEq

/-- One intermediate respiration row (`Resp_Data.csv`): `created_at`, `count`. -/
structure RespRow where
  created_at : Option Int
  count : Option ℚ
deriving DecidableEq

/-- One intermediate step row (`Step_Data.csv`): `created_at`, `count`.
`count = none` models a non-numeric entry in the CSV column (the code never
coerces this column). -/
structure StepRow where
  created_at : Option Int
  count : Option ℚ
deriving DecidableEq

/-- One intermediate sleep row (`Sleep_Data.csv`): `created_at`,
`start_date`, `end_date`. -/
structure SleepRow where
  created_at : Option Int
  start_date : Option Int
  end_date : Option Int
deriving DecidableEq

/-- Output row of `transform_heart_data`. -/
structure HeartDaily where
  created_at : Int
  avg_heart_rate : ℚ
  year : Int
  month : Int
  day : Int
deriving DecidableEq

/-- Output row of `transform_resp_data`. -/
structure RespDaily where
  created_at : Int
  avg_resp_rate : ℚ
  year : Int
  month : Int
  day : Int
deriving DecidableEq

/-- Output row of `transform_step_data`. -/
structure StepDaily where
  created_at : Int
  total_steps : ℚ
  year : Int
  month : Int
  day : Int
deriving DecidableEq

/-- Output row of `transform_sleep_data`. -/
structure SleepDaily where
  created_at : Int
  total_sleep_minutes : ℚ
  year : Int
  month : Int
  day : Int
deriving DecidableEq

/-- Row filter of `transform_heart_data`:
`(df['value'] >= 30) & (df['value'] <= 220)`.  A `NaN` value fails both
comparisons, so an unparseable value is dropped here. -/
def heartKeep (r : HeartRow) : Bool :=
  match r.value with
  | some v => decide (30 ≤ v) && decide (v ≤ 220)
  | none => false

/-- Rows of a heart table surviving the value-range filter and
`dropna(subset=['created_at'])`, in that order, as in the code. -/
def heartFiltered (df : List HeartRow) : List HeartRow :=
  (df.filter heartKeep).filter (fun r => r.created_at.isSome)

/-- Values of the surviving heart rows that fall on day `d`. -/
def heartValsOn (f : List HeartRow) (d : Int) : List ℚ :=
  (f.filter (fun r => decide (r.created_at.map dateOf = some d))).map (fun r => r.value.getD 0)

/-- One output row of the heart `groupby(date).agg(mean)`. -/
def heartDailyFor (f : List HeartRow) (d : Int) : HeartDaily :=
  ⟨d, (heartValsOn f d).sum / ((heartValsOn f d).length : ℚ),
    (civilFromDays d).1, (civilFromDays d).2.1, (civilFromDays d).2.2⟩

/-- `transform_heart_data`: coerce, filter to 30–220, drop unparseable
timestamps, group by calendar date, take the mean per date, attach
year/month/day. -/
def transform_heart_data (df : List HeartRow) : List HeartDaily :=
  (sortedDates ((heartFiltered df).filterMap (fun r => r.created_at.map dateOf))).map
    (heartDailyFor (heartFiltered df))

/-- Row filter of `transform_resp_data`:
`(df['count'] >= 8) & (df['count'] <= 40)`. -/
def respKeep (r : RespRow) : Bool :=
  match r.count with
  | some v => decide (8 ≤ v) && decide (v ≤ 40)
  | none => false

/-- Rows of a respiration table surviving the range filter and
`dropna(subset=['created_at'])`. -/
def respFiltered (df : List RespRow) : List RespRow :=
  (df.filter respKeep).filter (fun r => r.created_at.isSome)

/-- Counts of the surviving respiration rows that fall on day `d`. -/
def respValsOn (f : List RespRow) (d : Int) : List ℚ :=
  (f.filter (fun r => decide (r.created_at.map dateOf = some d))).map (fun r => r.count.getD 0)

/-- One output row of the respiration `groupby(date).agg(mean)`. -/
def respDailyFor (f : List RespRow) (d : Int) : RespDaily :=
  ⟨d, (respValsOn f d).sum / ((respValsOn f d).length : ℚ),
    (civilFromDays d).1, (civilFromDays d).2.1, (civilFromDays d).2.2⟩

/-- `transform_resp_data`: coerce, filter to 8–40, drop unparseable
timestamps, group by calendar date, take the mean per date. -/
def transform_resp_data (df : List RespRow) : List RespDaily :=
  (sortedDates ((respFiltered df).filterMap (fun r => r.created_at.map dateOf))).map
    (respDailyFor (respFiltered df))

/-- Rows of a step table surviving `df['count'] <= 100000` (no lower bound)
and `dropna(subset=['created_at'])`, in that order. -/
def stepFiltered (df : List StepRow) : List StepRow :=
  (df.filter (fun r => decide (r.count.getD 0 ≤ (100000 : ℚ)))).filter
    (fun r => r.created_at.isSome)

/-- Counts of the surviving step rows that fall on day `d`. -/
def stepValsOn (f : List StepRow) (d : Int) : List ℚ :=
  (f.filter (fun r => decide (r.created_at.map dateOf = some d))).map (fun r => r.count.getD 0)

/-- One output row of the step `groupby(date).agg(sum)`. -/
def stepDailyFor (f : List StepRow) (d : Int) : StepDaily :=
  ⟨d, (stepValsOn f d).sum,
    (civilFromDays d).1, (civilFromDays d).2.1, (civilFromDays d).2.2⟩

/-- `transform_step_data`.  The code never coerces the `count` column, so if
any entry is non-numeric the whole column has object dtype and
`df['count'] <= 100000` raises `TypeError` before any row is dropped; this
is the `Except.error` branch.  Otherwise: filter counts to ≤ 100000, drop
unparseable timestamps, group by date, sum per date. -/
def transform_step_data (df : List StepRow) : Except Unit (List StepDaily) :=
  if df.any (fun r => r.count.isNone) then Except.error () else
  Except.ok
    ((sortedDates ((stepFiltered df).filterMap (fun r => r.created_at.map dateOf))).map
      (stepDailyFor (stepFiltered df)))

/-- Sleep pre-filter: `dropna(subset=['created_at','start_date','end_date'])`
followed by `df[df['end_date'] > df['start_date']]`, in that order. -/
def sleepPrefilter (df : List SleepRow) : List SleepRow :=
  (df.filter (fun r => r.created_at.isSome && r.start_date.isSome && r.end_date.isSome)).filter
    (fun r => decide (r.start_date.getD 0 < r.end_date.getD 0))

/-- Strict lexicographic order on the sleep sort key
`['created_at', 'start_date']` (report timestamp primary). -/
def sleepLt (a b : SleepRow) : Bool :=
  decide (a.created_at.getD 0 < b.created_at.getD 0) ||
    (decide (a.created_at.getD 0 = b.created_at.getD 0) &&
      decide (a.start_date.getD 0 < b.start_date.getD 0))

/-- Insert a sleep row into a list sorted by `sleepLt`. -/
def insertSleep (r : SleepRow) : List SleepRow → List SleepRow
  | [] => [r]
  | x :: xs => if sleepLt r x then r :: x :: xs else x :: insertSleep r xs

/-- `df.sort_values(by=['created_at', 'start_date'])` (a sort by that key;
pandas' default quicksort leaves the order of tied keys unspecified). -/
def sortSleep (l : List SleepRow) : List SleepRow := l.foldr insertSleep []

/-- The `(start, end)` pairs fed to the merge loop, in the sorted row order
(`zip(df['start_date'], df['end_date'])` after the sort). -/
def sleepSessions (df : List SleepRow) : List (Int × Int) :=
  (sortSleep (sleepPrefilter df)).map (fun r => (r.start_date.getD 0, r.end_date.getD 0))

/-- The merge loop of `transform_sleep_data`, with the open interval
(`current_start`, `current_end`) as explicit state: a session starting at or
before `current_end` extends the open interval (`max`), otherwise the open
interval is emitted and the session opens a new one; the still-open interval
is flushed at the end. -/
def mergeLoop : List (Int × Int) → Option (Int × Int) → List (Int × Int)
  | [], none => []
  | [], some cur => [cur]
  | se :: rest, none => mergeLoop rest (some se)
  | se :: rest, some cur =>
      if se.1 ≤ cur.2 then mergeLoop rest (some (cur.1, max cur.2 se.2))
      else cur :: mergeLoop rest (some se)

/-- Run the merge loop from the initial `current_start = current_end = None`. -/
def mergeSessions (l : List (Int × Int)) : List (Int × Int) := mergeLoop l none

/-- `duration_mins`: `(end - start).dt.total_seconds() / 60`. -/
def durationMins (p : Int × Int) : ℚ := ((p.2 - p.1 : Int) : ℚ) / 60

/-- Total length of a list of intervals in seconds. -/
def totalSec (l : List (Int × Int)) : Int := (l.map (fun p => p.2 - p.1)).sum

/-- Total duration of a list of intervals in minutes, as the transform sums
the per-interval `duration_mins` column. -/
def totalMins (l : List (Int × Int)) : ℚ := (l.map durationMins).sum

/-- The merged session list of `transform_sleep_data` for a given input. -/
def mergedIntervals (df : List SleepRow) : List (Int × Int) :=
  mergeSessions (sleepSessions df)

/-- Merged intervals tagged with the calendar date of their start and their
duration in minutes (the columns of `merged_df`). -/
def sleepDurRows (df : List SleepRow) : List (Int × ℚ) :=
  (mergedIntervals df).map (fun p => (dateOf p.1, durationMins p))

/-- One output row of the sleep `groupby(created_at).agg(sum)`. -/
def sleepDailyFor (rows : List (Int × ℚ)) (d : Int) : SleepDaily :=
  ⟨d, ((rows.filter (fun x => decide (x.1 = d))).map (fun x => x.2)).sum,
    (civilFromDays d).1, (civilFromDays d).2.1, (civilFromDays d).2.2⟩

/-- `transform_sleep_data`: pre-filter, sort by `(created_at, start_date)`,
merge overlapping or touching sessions, then sum merged durations per start
date.  When the merged session list is empty, `merged_df` has object-dtype
columns and `(end - start).dt.total_seconds()` raises `AttributeError`;
this is the `Except.error` branch. -/
def transform_sleep_data (df : List SleepRow) : Except Unit (List SleepDaily) :=
  if mergedIntervals df = [] then Except.error () else
  Except.ok
    ((sortedDates ((mergedIntervals df).map (fun p => dateOf p.1))).map
      (sleepDailyFor (sleepDurRows df)))

/-- Whether an `Except` result is a success. -/
def exceptOk {ε α : Type} : Except ε α → Bool
  | Except.ok _ => true
  | Except.error _ => false

/-- Body of the `try` block of `main` in `transform_data.py`: the four
transforms run in order (heart, respiration, sleep, steps) and the first
exception aborts the rest. -/
def etlJob (hIn : List HeartRow) (rIn : List RespRow) (sIn : List SleepRow)
    (stIn : List StepRow) :
    Except Unit (List HeartDaily × List RespDaily × List SleepDaily × List StepDaily) :=
  match transform_sleep_data sIn with
  | Except.error e => Except.error e
  | Except.ok s =>
      match transform_step_data stIn with
      | Except.error e => Except.error e
      | Except.ok st => Except.ok (transform_heart_data hIn, transform_resp_data rIn, s, st)

/-- Observable outcome of one run of `main`: the elapsed-time `print` sits
at the end of the `try` block, the `except` branch only logs the error. -/
structure RunReport where
  time_reported : Bool
  error_logged : Bool
deriving DecidableEq

/-- The driver `main`: on success the elapsed time is printed and no error
is logged; on any stage exception the error is logged and the time line is
never reached. -/
def mainRun (hIn : List HeartRow) (rIn : List RespRow) (sIn : List SleepRow)
    (stIn : List StepRow) : RunReport :=
  match etlJob hIn rIn sIn stIn with
  | Except.ok _ => ⟨true, false⟩
  | Except.error _ => ⟨false, true⟩

/-- One parsed element of the export stream, as `xml.etree` presents it:
a tag and an attribute mapping (association list, first binding wins). -/
structure Element where
  tag : String
  attrib : List (String × String)
deriving DecidableEq

/-- The `'Record'` tag name. -/
def recordTag : String := ("Record")

/-- The `'type'` attribute key. -/
def typeKey : String := ("type")

/-- The `'creationDate'` attribute key. -/
def creationKey : String := ("creationDate")

/-- The `'value'` attribute key. -/
def valueKey : String := ("value")

/-- The `'startDate'` attribute key. -/
def startKey : String := ("startDate")

/-- The `'endDate'` attribute key. -/
def endKey : String := ("endDate")

/-- The empty-string default used for missing timestamp attributes. -/
def emptyDefault : String := ("")

/-- The `'0'` default used for missing numeric attributes. -/
def zeroDefault : String := ("0")

/-- `element.attrib.get(k)`: the attribute's value, or `none` when absent. -/
def attribFind (e : Element) (k : String) : Option String :=
  (e.attrib.find? (fun p => p.1 == k)).map (fun p => p.2)

/-- `element.attrib.get(k, d)`: the attribute's value, or the default `d`
when absent. -/
def attribGet (e : Element) (k d : String) : String :=
  (attribFind e k).getD d

/-- The `heart_row` builder: `(creationDate or '', value or '0')`. -/
def heart_row (e : Element) : String × String :=
  (attribGet e creationKey emptyDefault, attribGet e valueKey zeroDefault)

/-- The `sleep_row` builder:
`(creationDate or '', startDate or '', endDate or '')`. -/
def sleep_row (e : Element) : String × String × String :=
  (attribGet e creationKey emptyDefault,
    attribGet e startKey emptyDefault, attribGet e endKey emptyDefault)

/-- The `step_row` builder: `(creationDate or '', value or '0')`. -/
def step_row (e : Element) : String × String :=
  (attribGet e creationKey emptyDefault, attribGet e valueKey zeroDefault)

/-- The `resp_row` builder: `(creationDate or '', value or '0')`. -/
def resp_row (e : Element) : String × String :=
  (attribGet e creationKey emptyDefault, attribGet e valueKey zeroDefault)

/-- Whether an element is a `Record` whose `type` attribute equals the
caller's filter string (a missing `type` attribute never matches). -/
def recordMatches (filt : String) (e : Element) : Bool :=
  e.tag == recordTag && attribFind e typeKey == some filt

/-- `generate_rows`: one pass over the element stream, yielding the built
row for every `Record` whose `type` equals the filter.  The builder call is
wrapped in `try/except`, but every builder is total (each `attrib.get`
carries a default), so no matching record is skipped. -/
def generate_rows {ρ : Type} (filt : String) (builder : Element → ρ)
    (elems : List Element) : List ρ :=
  elems.filterMap (fun e => if recordMatches filt e then some (builder e) else none)

/-- The heart-rate record type string passed to `generate_rows`. -/
def heartTypeStr : String := ("HKQuantityTypeIdentifierHeartRate")

/-- The `(start, end)` pairs of the original (pre-filtered, unsorted)
sessions, whose summed durations the merged total is compared against. -/
def sleepOriginalSessions (df : List SleepRow) : List (Int × Int) :=
  (sleepPrefilter df).map (fun r => (r.start_date.getD 0, r.end_date.getD 0))

/-- Modelled from the spec's words, for comparison with the code: no two
sessions overlap or touch, i.e. every pair is separated by a strict gap
(pairwise disjoint and non-adjacent). -/
def specPairwiseSeparated (l : List (Int × Int)) : Prop :=
  List.Pairwise (fun a b => a.2 < b.1 ∨ b.2 < a.1) l

/-- Modelled from the spec's words, for comparison with the code: an
"already merged" interval set — pairwise non-overlapping and sorted
ascending by start (two intervals that merely touch end-to-start are
non-overlapping). -/
def specSortedNonOverlapping (l : List (Int × Int)) : Prop :=
  List.Pairwise (fun a b => a.1 ≤ b.1 ∧ a.2 ≤ b.1) l

/-- Unfolding lemma: the total length of no intervals is zero. -/
theorem totalSec_nil : totalSec [] = 0 := rfl

/-- Unfolding lemma: the total length of `p :: l` in seconds. -/
theorem totalSec_cons (p : Int × Int) (l : List (Int × Int)) :
    totalSec (p :: l) = (p.2 - p.1) + totalSec l := by
  simp [totalSec]

/-- Unfolding lemma: the total duration of `p :: l` in minutes. -/
theorem totalMins_cons (p : Int × Int) (l : List (Int × Int)) :
    totalMins (p :: l) = durationMins p + totalMins l := by
  simp [totalMins]

/-- Total minutes is total seconds divided by sixty. -/
theorem totalMins_eq_totalSec (l : List (Int × Int)) :
    totalMins l = (totalSec l : ℚ) / 60 := by
  induction l with
  | nil => simp [totalMins, totalSec]
  | cons p tl ih =>
    rw [totalMins_cons, totalSec_cons, ih, durationMins]
    push_cast
    ring

/-- Each step of the merge loop adds at most the incoming session's own
length to the final total, so the emitted total is bounded by the open
interval's length plus the remaining sessions' total length. -/
theorem mergeLoop_totalSec_le (l : List (Int × Int)) :
    ∀ cs ce : Int, (∀ p ∈ l, p.1 ≤ p.2) → cs ≤ ce →
      totalSec (mergeLoop l (some (cs, ce))) ≤ (ce - cs) + totalSec l := by
  induction l with
  | nil =>
    intro cs ce _ _
    simp [mergeLoop, totalSec]
  | cons hd tl ih =>
    intro cs ce hv hce
    obtain ⟨s, e⟩ := hd
    have hse : s ≤ e := hv (s, e) (List.mem_cons_self _ _)
    have htl : ∀ p ∈ tl, p.1 ≤ p.2 := fun p hp => hv p (List.mem_cons_of_mem _ hp)
    rw [totalSec_cons]
    by_cases h : s ≤ ce
    · have h1 := ih cs (max ce e) htl (le_trans hce (le_max_left _ _))
      have h2 : max ce e - cs ≤ (ce - cs) + (e - s) := by
        rcases le_total ce e with hle | hle
        · rw [max_eq_right hle]; omega
        · rw [max_eq_left hle]; omega
      simp only [mergeLoop, if_pos h]
      omega
    · simp only [mergeLoop, if_neg h]
      rw [totalSec_cons]
      have h1 := ih s e htl hse
      omega

/-- The merged total length never exceeds the original total length. -/
theorem mergeSessions_totalSec_le (l : List (Int × Int))
    (hv : ∀ p ∈ l, p.1 ≤ p.2) :
    totalSec (mergeSessions l) ≤ totalSec l := by
  cases l with
  | nil => simp [mergeSessions, mergeLoop]
  | cons hd tl =>
    obtain ⟨s, e⟩ := hd
    have hse : s ≤ e := hv (s, e) (List.mem_cons_self _ _)
    have htl : ∀ p ∈ tl, p.1 ≤ p.2 := fun p hp => hv p (List.mem_cons_of_mem _ hp)
    have h1 := mergeLoop_totalSec_le tl s e htl hse
    rw [mergeSessions]
    simp only [mergeLoop]
    rw [totalSec_cons]
    omega

/-- On a list whose consecutive entries are separated by strict gaps, the
merge loop reproduces the open interval followed by the list unchanged. -/
theorem mergeLoop_id (rest : List (Int × Int)) :
    ∀ c : Int × Int, List.Chain' (fun a b => a.2 < b.1) (c :: rest) →
      mergeLoop rest (some c) = c :: rest := by
  induction rest with
  | nil =>
    intro c _
    simp [mergeLoop]
  | cons hd tl ih =>
    intro c hch
    have h1 : c.2 < hd.1 := (List.chain'_cons.mp hch).1
    have h2 := (List.chain'_cons.mp hch).2
    simp only [mergeLoop, if_neg (by omega : ¬ hd.1 ≤ c.2)]
    rw [ih hd h2]

/-- The merge is the identity on a strictly gap-separated list. -/
theorem mergeSessions_id (l : List (Int × Int))
    (h : List.Chain' (fun a b => a.2 < b.1) l) :
    mergeSessions l = l := by
  cases l with
  | nil => rfl
  | cons c rest =>
    rw [mergeSessions]
    simp only [mergeLoop]
    exact mergeLoop_id rest c h

/-- Invariant of the merge loop: every emitted interval starts no earlier
than the open interval, every emitted interval is non-degenerate, and the
emitted intervals are pairwise separated by strict gaps. -/
theorem mergeLoop_sorted (l : List (Int × Int)) :
    ∀ cur : Int × Int, cur.1 < cur.2 → (∀ p ∈ l, p.1 < p.2) →
      (∀ p ∈ mergeLoop l (some cur), cur.1 ≤ p.1 ∧ p.1 < p.2) ∧
        List.Pairwise (fun a b => a.2 < b.1) (mergeLoop l (some cur)) := by
  induction l with
  | nil =>
    intro cur hc _
    constructor
    · intro p hp
      simp only [mergeLoop, List.mem_singleton] at hp
      subst hp
      exact ⟨le_refl _, hc⟩
    · simp [mergeLoop]
  | cons hd tl ih =>
    intro cur hc hv
    have hhd : hd.1 < hd.2 := hv hd (List.mem_cons_self _ _)
    have htl : ∀ p ∈ tl, p.1 < p.2 := fun p hp => hv p (List.mem_cons_of_mem _ hp)
    by_cases h : hd.1 ≤ cur.2
    · have hc2 : (cur.1, max cur.2 hd.2).1 < (cur.1, max cur.2 hd.2).2 :=
        lt_of_lt_of_le hc (le_max_left _ _)
      have hrec := ih (cur.1, max cur.2 hd.2) hc2 htl
      simp only [mergeLoop, if_pos h]
      exact ⟨fun p hp => (hrec.1 p hp), hrec.2⟩
    · push_neg at h
      have hrec := ih hd hhd htl
      simp only [mergeLoop, if_neg (not_le.mpr h)]
      constructor
      · intro p hp
        rcases List.mem_cons.mp hp with hpc | hp2
        · subst hpc
          exact ⟨le_refl _, hc⟩
        · have h1 := hrec.1 p hp2
          exact ⟨le_trans (le_of_lt (lt_trans hc h)) h1.1, h1.2⟩
      · apply List.pairwise_cons.mpr
        refine ⟨fun p hp => ?_, hrec.2⟩
        have h1 := hrec.1 p hp
        exact lt_of_lt_of_le h h1.1

/-- The merged output of a valid session list consists of non-degenerate
intervals separated pairwise by strict gaps. -/
theorem mergeSessions_sorted (l : List (Int × Int)) (hv : ∀ p ∈ l, p.1 < p.2) :
    (∀ p ∈ mergeSessions l, p.1 < p.2) ∧
      List.Pairwise (fun a b => a.2 < b.1) (mergeSessions l) := by
  cases l with
  | nil => simp [mergeSessions, mergeLoop]
  | cons hd tl =>
    have hhd : hd.1 < hd.2 := hv hd (List.mem_cons_self _ _)
    have htl : ∀ p ∈ tl, p.1 < p.2 := fun p hp => hv p (List.mem_cons_of_mem _ hp)
    have h := mergeLoop_sorted tl hd hhd htl
    rw [mergeSessions]
    simp only [mergeLoop]
    exact ⟨fun p hp => (h.1 p hp).2, h.2⟩

/-- Inserting into the sorted accumulator is a permutation of consing. -/
theorem insertSleep_perm (r : SleepRow) (l : List SleepRow) :
    List.Perm (insertSleep r l) (r :: l) := by
  induction l with
  | nil => simp [insertSleep]
  | cons x xs ih =>
    by_cases h : sleepLt r x
    · simp [insertSleep, h]
    · simp only [insertSleep, if_neg h]
      exact List.Perm.trans (List.Perm.cons x ih) (List.Perm.swap r x xs)

/-- The sleep sort is a permutation of its input. -/
theorem sortSleep_perm (l : List SleepRow) : List.Perm (sortSleep l) l := by
  induction l with
  | nil => exact List.Perm.refl []
  | cons x xs ih =>
    show List.Perm (insertSleep x (sortSleep xs)) (x :: xs)
    exact List.Perm.trans (insertSleep_perm x (sortSleep xs)) (List.Perm.cons x ih)

/-- Membership in the sleep pre-filter output: exactly the input rows whose
three timestamps all parse and whose end is strictly after their start. -/
theorem mem_sleepPrefilter (df : List SleepRow) (r : SleepRow) :
    r ∈ sleepPrefilter df ↔
      r ∈ df ∧ ∃ c s e : Int, r.created_at = some c ∧ r.start_date = some s ∧
        r.end_date = some e ∧ s < e := by
  constructor
  · intro h
    obtain ⟨h1, hB⟩ := List.mem_filter.mp h
    obtain ⟨hdf, hA⟩ := List.mem_filter.mp h1
    have hA3 : r.created_at.isSome ∧ r.start_date.isSome ∧ r.end_date.isSome := by
      simpa [Bool.and_eq_true, and_assoc] using hA
    obtain ⟨c, hc⟩ := Option.isSome_iff_exists.mp hA3.1
    obtain ⟨s, hs⟩ := Option.isSome_iff_exists.mp hA3.2.1
    obtain ⟨e, he⟩ := Option.isSome_iff_exists.mp hA3.2.2
    have hlt : r.start_date.getD 0 < r.end_date.getD 0 := by simpa using hB
    rw [hs, he] at hlt
    exact ⟨hdf, c, s, e, hc, hs, he, by simpa using hlt⟩
  · rintro ⟨hdf, c, s, e, hc, hs, he, hlt⟩
    apply List.mem_filter.mpr
    refine ⟨List.mem_filter.mpr ⟨hdf, ?_⟩, ?_⟩
    · simp [hc, hs, he]
    · simp [hs, he, hlt]

/-- Every session reaching the merge loop is non-degenerate. -/
theorem sleepSessions_valid (df : List SleepRow) :
    ∀ p ∈ sleepSessions df, p.1 < p.2 := by
  intro p hp
  simp only [sleepSessions, List.mem_map] at hp
  obtain ⟨r, hr, hpr⟩ := hp
  have hr2 : r ∈ sleepPrefilter df := (sortSleep_perm (sleepPrefilter df)).mem_iff.mp hr
  obtain ⟨_, c, s, e, hc, hs, he, hlt⟩ := (mem_sleepPrefilter df r).mp hr2
  subst hpr
  simp [hs, he, hlt]

/-- Total minutes is invariant under permutation of the interval list. -/
theorem totalMins_perm (a b : List (Int × Int)) (h : List.Perm a b) :
    totalMins a = totalMins b :=
  List.Perm.sum_eq (h.map durationMins)

/-- The sorted session list is a permutation of the original session list. -/
theorem sleepSessions_perm (df : List SleepRow) :
    List.Perm (sleepSessions df) (sleepOriginalSessions df) :=
  (sortSleep_perm (sleepPrefilter df)).map _

/-- The generator is exactly a map of the builder over the matching
records: nothing is skipped, one row per match. -/
theorem generate_rows_eq {ρ : Type} (filt : String) (b : Element → ρ)
    (elems : List Element) :
    generate_rows filt b elems = (elems.filter (recordMatches filt)).map b := by
  induction elems with
  | nil => rfl
  | cons e es ih =>
    by_cases h : recordMatches filt e
    · simp [generate_rows, List.filterMap_cons, List.filter_cons, h] at ih ⊢
      exact ih
    · simp [generate_rows, List.filterMap_cons, List.filter_cons, h] at ih ⊢
      exact ih

/-- C1 (counterexample): two sessions that touch end-to-start (so they are
not "pairwise disjoint and non-adjacent") are merged into one interval with
no duration lost, so the merged total equals the original total — refuting
the claimed "equality iff no two input sessions overlap or touch". -/
theorem C1_counterexample :
    totalMins (mergedIntervals [⟨some 0, some 0, some 3600⟩, ⟨some 0, some 3600, some 7200⟩]) =
        totalMins (sleepOriginalSessions [⟨some 0, some 0, some 3600⟩, ⟨some 0, some 3600, some 7200⟩]) ∧
      ¬ specPairwiseSeparated
        (sleepOriginalSessions [⟨some 0, some 0, some 3600⟩, ⟨some 0, some 3600, some 7200⟩]) := by
  constructor
  · have hm : mergedIntervals [⟨some 0, some 0, some 3600⟩, ⟨some 0, some 3600, some 7200⟩] =
        [(0, 7200)] := rfl
    have ho : sleepOriginalSessions [⟨some 0, some 0, some 3600⟩, ⟨some 0, some 3600, some 7200⟩] =
        [(0, 3600), (3600, 7200)] := rfl
    rw [hm, ho]
    norm_num [totalMins, durationMins]
  · have ho : sleepOriginalSessions [⟨some 0, some 0, some 3600⟩, ⟨some 0, some 3600, some 7200⟩] =
        [(0, 3600), (3600, 7200)] := rfl
    rw [ho]
    unfold specPairwiseSeparated
    decide

/-- C1 (amended): for every input table, the summed duration of the merged
intervals produced by `transform_sleep_data` is at most the summed duration
of the pre-filtered original sessions; equality holds whenever consecutive
sessions of the sorted sequence are separated by strict gaps.  (The spec's
"equality iff pairwise disjoint and non-adjacent" does not hold; see the
counterexample.) -/
theorem C1_merged_total_le (df : List SleepRow) :
    totalMins (mergedIntervals df) ≤ totalMins (sleepOriginalSessions df) ∧
      (List.Chain' (fun a b => a.2 < b.1) (sleepSessions df) →
        totalMins (mergedIntervals df) = totalMins (sleepOriginalSessions df)) := by
  have hperm := sleepSessions_perm df
  have hval := sleepSessions_valid df
  constructor
  · have hle : totalSec (mergedIntervals df) ≤ totalSec (sleepSessions df) :=
      mergeSessions_totalSec_le _ (fun p hp => le_of_lt (hval p hp))
    rw [← totalMins_perm _ _ hperm, totalMins_eq_totalSec, totalMins_eq_totalSec]
    have hq : (totalSec (mergedIntervals df) : ℚ) ≤ (totalSec (sleepSessions df) : ℚ) := by
      exact_mod_cast hle
    gcongr
  · intro hch
    rw [← totalMins_perm _ _ hperm, mergedIntervals, mergeSessions_id _ hch]

/-- C1 (witness): the bound at a table with overlapping sessions, and the
equality at a table whose sorted sessions are strictly separated. -/
theorem C1_witness :
    totalMins (mergedIntervals [⟨some 0, some 0, some 3600⟩, ⟨some 0, some 1800, some 7200⟩]) ≤
        totalMins (sleepOriginalSessions [⟨some 0, some 0, some 3600⟩, ⟨some 0, some 1800, some 7200⟩]) ∧
      totalMins (mergedIntervals [⟨some 1, some 0, some 60⟩, ⟨some 2, some 120, some 180⟩]) =
        totalMins (sleepOriginalSessions [⟨some 1, some 0, some 60⟩, ⟨some 2, some 120, some 180⟩]) :=
  ⟨(C1_merged_total_le _).1, (C1_merged_total_le _).2 (by
    have h : sleepSessions [⟨some 1, some 0, some 60⟩, ⟨some 2, some 120, some 180⟩] =
        [(0, 60), (120, 180)] := rfl
    rw [h]
    exact List.chain'_cons.mpr ⟨by norm_num, List.chain'_singleton _⟩)⟩

/-- C2: empty input to the heart, respiration and step aggregators yields
an empty, correctly-shaped table, but `transform_sleep_data` on an empty
table raises (`merged_df` is empty, its columns have object dtype, and the
`.dt` accessor on the duration column throws `AttributeError`), diverging
from the claim. -/
theorem C2_empty_input :
    transform_heart_data [] = [] ∧ transform_resp_data [] = [] ∧
      transform_step_data [] = Except.ok [] ∧
      transform_sleep_data [] = Except.error () :=
  ⟨rfl, rfl, rfl, rfl⟩

/-- C3 (counterexample): a single row with a non-numeric `count` makes
`transform_step_data` raise (`TypeError` comparing `str` to `int`), rather
than being rejected row-wise. -/
theorem C3_counterexample :
    transform_step_data [⟨some 0, none⟩] = Except.error () := rfl

/-- C3 (amended): heart and respiration rows with an unparseable numeric
field or timestamp are excluded from aggregation, sleep rows with any
unparseable timestamp are excluded by the pre-filter, and step rows with an
unparseable timestamp are excluded — but `transform_step_data` raises
exactly when some row's `count` is non-numeric, and `transform_sleep_data`
raises exactly when no merged session survives. -/
theorem C3_row_rejection :
    (∀ (df : List HeartRow) (r : HeartRow),
        r.value = none ∨ r.created_at = none → r ∉ heartFiltered df) ∧
      (∀ (df : List RespRow) (r : RespRow),
        r.count = none ∨ r.created_at = none → r ∉ respFiltered df) ∧
      (∀ (df : List SleepRow) (r : SleepRow),
        r.created_at = none ∨ r.start_date = none ∨ r.end_date = none →
          r ∉ sleepPrefilter df) ∧
      (∀ (df : List StepRow) (r : StepRow), r.created_at = none → r ∉ stepFiltered df) ∧
      (∀ df : List StepRow,
        transform_step_data df = Except.error () ↔ ∃ r ∈ df, r.count = none) ∧
      (∀ df : List SleepRow,
        transform_sleep_data df = Except.error () ↔ mergedIntervals df = []) := by
  refine ⟨?_, ?_, ?_, ?_, ?_, ?_⟩
  · intro df r h hr
    obtain ⟨hr1, hsome⟩ := List.mem_filter.mp hr
    have hkeep := (List.mem_filter.mp hr1).2
    rcases h with hv | hc
    · simp [heartKeep, hv] at hkeep
    · rw [hc] at hsome
      simp at hsome
  · intro df r h hr
    obtain ⟨hr1, hsome⟩ := List.mem_filter.mp hr
    have hkeep := (List.mem_filter.mp hr1).2
    rcases h with hv | hc
    · simp [respKeep, hv] at hkeep
    · rw [hc] at hsome
      simp at hsome
  · intro df r h hr
    obtain ⟨hr1, _⟩ := List.mem_filter.mp hr
    have hA := (List.mem_filter.mp hr1).2
    rcases h with hc | hs | he
    · rw [hc] at hA; simp at hA
    · rw [hs] at hA; simp at hA
    · rw [he] at hA; simp at hA
  · intro df r h hr
    have hsome := (List.mem_filter.mp hr).2
    rw [h] at hsome
    simp at hsome
  · intro df
    constructor
    · intro h
      by_cases hany : df.any (fun r => r.count.isNone)
      · obtain ⟨r, hr, hn⟩ := List.any_eq_true.mp hany
        exact ⟨r, hr, Option.isNone_iff_eq_none.mp hn⟩
      · rw [transform_step_data, if_neg hany] at h
        exact absurd h (by simp)
    · rintro ⟨r, hr, hn⟩
      have hany : df.any (fun r => r.count.isNone) = true :=
        List.any_eq_true.mpr ⟨r, hr, by simp [hn]⟩
      rw [transform_step_data, if_pos hany]
  · intro df
    constructor
    · intro h
      by_cases hm : mergedIntervals df = []
      · exact hm
      · rw [transform_sleep_data, if_neg hm] at h
        exact absurd h (by simp)
    · intro hm
      rw [transform_sleep_data, if_pos hm]

/-- C3 (witness): an unparseable heart value is excluded, and a
non-numeric step count makes the step transform raise. -/
theorem C3_witness :
    (⟨some 0, none⟩ : HeartRow) ∉ heartFiltered [⟨some 0, none⟩, ⟨some 0, some 60⟩] ∧
      transform_step_data [⟨some 1, none⟩] = Except.error () :=
  ⟨C3_row_rejection.1 _ _ (Or.inl rfl),
    (C3_row_rejection.2.2.2.2.1 _).mpr ⟨⟨some 1, none⟩, by simp, rfl⟩⟩

/-- C4: on any session list with positive durations (in whatever order the
sort produced it), the merge loop's output consists of intervals with
end strictly above start, pairwise non-overlapping and sorted strictly
ascending by start; in particular this holds for the merged intervals of
`transform_sleep_data` on any input table. -/
theorem C4_merged_invariant :
    (∀ l : List (Int × Int), (∀ p ∈ l, p.1 < p.2) →
        (∀ p ∈ mergeSessions l, p.1 < p.2) ∧
          List.Pairwise (fun a b => a.2 < b.1 ∧ a.1 < b.1) (mergeSessions l)) ∧
      (∀ df : List SleepRow,
        (∀ p ∈ mergedIntervals df, p.1 < p.2) ∧
          List.Pairwise (fun a b => a.2 < b.1 ∧ a.1 < b.1) (mergedIntervals df)) := by
  have main : ∀ l : List (Int × Int), (∀ p ∈ l, p.1 < p.2) →
      (∀ p ∈ mergeSessions l, p.1 < p.2) ∧
        List.Pairwise (fun a b => a.2 < b.1 ∧ a.1 < b.1) (mergeSessions l) := by
    intro l hv
    have h := mergeSessions_sorted l hv
    refine ⟨h.1, ?_⟩
    refine List.Pairwise.imp_of_mem ?_ h.2
    intro a b ha hb hab
    exact ⟨hab, lt_trans (h.1 a ha) hab⟩
  exact ⟨main, fun df => main _ (sleepSessions_valid df)⟩

/-- C4 (witness): the invariant evaluated on a concrete session list with
two overlapping sessions and one separate session. -/
theorem C4_witness :
    List.Pairwise (fun a b : Int × Int => a.2 < b.1 ∧ a.1 < b.1)
      (mergeSessions [(0, 2), (1, 3), (10, 11)]) :=
  (C4_merged_invariant.1 [(0, 2), (1, 3), (10, 11)] (by decide)).2

/-- C5 (counterexample): the list `[(0,60),(60,120)]` is pairwise
non-overlapping and sorted ascending by start, yet the merge loop fuses the
two touching intervals, so re-running the merge does not yield the
identical set. -/
theorem C5_counterexample :
    specSortedNonOverlapping [(0, 60), (60, 120)] ∧
      mergeSessions [(0, 60), (60, 120)] ≠ [(0, 60), (60, 120)] := by
  constructor
  · unfold specSortedNonOverlapping
    decide
  · decide

/-- C5 (amended): the merge is the identity exactly on interval sets whose
consecutive intervals are separated by strict gaps (non-overlapping AND
non-adjacent, sorted by start), and consequently the merge is idempotent:
merging a merged output again yields the identical list. -/
theorem C5_merge_idempotent :
    (∀ l : List (Int × Int),
        List.Chain' (fun a b => a.2 < b.1) l → mergeSessions l = l) ∧
      (∀ l : List (Int × Int), (∀ p ∈ l, p.1 < p.2) →
        mergeSessions (mergeSessions l) = mergeSessions l) := by
  refine ⟨fun l h => mergeSessions_id l h, fun l hv => ?_⟩
  have h := mergeSessions_sorted l hv
  exact mergeSessions_id _ h.2.chain'

/-- C5 (witness): merging a strictly separated list returns it unchanged,
and merging twice equals merging once on an overlapping list. -/
theorem C5_witness :
    mergeSessions [(0, 10), (20, 30)] = [(0, 10), (20, 30)] ∧
      mergeSessions (mergeSessions [(0, 5), (3, 8)]) = mergeSessions [(0, 5), (3, 8)] :=
  ⟨C5_merge_idempotent.1 _ (List.chain'_cons.mpr ⟨by norm_num, List.chain'_singleton _⟩),
    C5_merge_idempotent.2 _ (by decide)⟩

/-- C6: every value contributing to a heart daily average lies in the
closed range 30–220, and a single-row table is aggregated exactly when its
value lies in the range — so 29 and 221 are excluded while 30 and 220 are
included. -/
theorem C6_heart_range :
    (∀ (df : List HeartRow) (r : HeartRow), r ∈ heartFiltered df →
        ∃ v : ℚ, r.value = some v ∧ 30 ≤ v ∧ v ≤ 220) ∧
      (∀ (t : Int) (v : ℚ), transform_heart_data [⟨some t, some v⟩] =
        if 30 ≤ v ∧ v ≤ 220 then
          [⟨dateOf t, v, (civilFromDays (dateOf t)).1, (civilFromDays (dateOf t)).2.1,
            (civilFromDays (dateOf t)).2.2⟩]
        else []) := by
  constructor
  · intro df r hr
    obtain ⟨hr1, _⟩ := List.mem_filter.mp hr
    have hkeep := (List.mem_filter.mp hr1).2
    cases hv : r.value with
    | none => simp [heartKeep, hv] at hkeep
    | some v =>
      rw [heartKeep, hv] at hkeep
      simp only [Bool.and_eq_true, decide_eq_true_eq] at hkeep
      exact ⟨v, rfl, hkeep.1, hkeep.2⟩
  · intro t v
    by_cases h : 30 ≤ v ∧ v ≤ 220
    · rw [if_pos h]
      have hkeep : heartKeep ⟨some t, some v⟩ = true := by
        simp [heartKeep, h.1, h.2]
      have hfil : heartFiltered [⟨some t, some v⟩] = [⟨some t, some v⟩] := by
        simp [heartFiltered, List.filter_cons, hkeep]
      rw [transform_heart_data, hfil]
      have hdates : List.filterMap (fun r : HeartRow => Option.map dateOf r.created_at)
          [⟨some t, some v⟩] = [dateOf t] := by
        simp [List.filterMap_cons]
      rw [hdates]
      have hsd : sortedDates [dateOf t] = [dateOf t] := by
        simp [sortedDates, insertDate]
      rw [hsd]
      have hvals : heartValsOn [⟨some t, some v⟩] (dateOf t) = [v] := by
        simp [heartValsOn, List.filter_cons]
      simp [heartDailyFor, hvals]
    · rw [if_neg h]
      have hkeep : heartKeep ⟨some t, some v⟩ = false := by
        rcases not_and_or.mp h with h1 | h1 <;> simp [heartKeep, h1]
      simp [transform_heart_data, heartFiltered, List.filter_cons, hkeep, sortedDates]

/-- C6 (witness): values 29 and 221 are excluded from the heart average,
30 and 220 are included. -/
theorem C6_witness :
    transform_heart_data [⟨some 0, some 29⟩] = [] ∧
      transform_heart_data [⟨some 0, some 221⟩] = [] ∧
      transform_heart_data [⟨some 0, some 30⟩] = [⟨0, 30, 1970, 1, 1⟩] ∧
      transform_heart_data [⟨some 0, some 220⟩] = [⟨0, 220, 1970, 1, 1⟩] := by
  refine ⟨?_, ?_, ?_, ?_⟩
  · have h := C6_heart_range.2 0 29
    rw [h, if_neg (by norm_num)]
  · have h := C6_heart_range.2 0 221
    rw [h, if_neg (by norm_num)]
  · have h := C6_heart_range.2 0 30
    rw [h, if_pos (by norm_num)]
    decide
  · have h := C6_heart_range.2 0 220
    rw [h, if_pos (by norm_num)]
    decide

/-- C7: a single-row step table is summed exactly when its count is at most
100000 (timestamp parseable), so 100000 is included, 100001 is excluded,
and there is no lower bound — arbitrarily small counts are included. -/
theorem C7_step_bound (t : Int) (v : ℚ) :
    transform_step_data [⟨some t, some v⟩] =
      Except.ok (if v ≤ 100000 then
        [⟨dateOf t, v, (civilFromDays (dateOf t)).1, (civilFromDays (dateOf t)).2.1,
          (civilFromDays (dateOf t)).2.2⟩]
      else []) := by
  have hany : ([⟨some t, some v⟩] : List StepRow).any (fun r => r.count.isNone) = false := by
    simp
  rw [transform_step_data, if_neg (by simp [hany])]
  by_cases h : v ≤ 100000
  · rw [if_pos h]
    have hfil : stepFiltered [⟨some t, some v⟩] = [⟨some t, some v⟩] := by
      simp [stepFiltered, List.filter_cons, h]
    rw [hfil]
    have hdates : List.filterMap (fun r : StepRow => Option.map dateOf r.created_at)
        [⟨some t, some v⟩] = [dateOf t] := by
      simp [List.filterMap_cons]
    rw [hdates]
    have hsd : sortedDates [dateOf t] = [dateOf t] := by
      simp [sortedDates, insertDate]
    rw [hsd]
    have hvals : stepValsOn [⟨some t, some v⟩] (dateOf t) = [v] := by
      simp [stepValsOn, List.filter_cons]
    simp [stepDailyFor, hvals]
  · rw [if_neg h]
    have hfil : stepFiltered [⟨some t, some v⟩] = [] := by
      simp [stepFiltered, List.filter_cons, h]
    rw [hfil]
    simp [sortedDates]

/-- C7 (witness): a count of exactly 100000 is included in the daily sum,
100001 is excluded, and a low count (zero) is included. -/
theorem C7_witness :
    transform_step_data [⟨some 0, some 100000⟩] = Except.ok [⟨0, 100000, 1970, 1, 1⟩] ∧
      transform_step_data [⟨some 0, some 100001⟩] = Except.ok [] ∧
      transform_step_data [⟨some 0, some 0⟩] = Except.ok [⟨0, 0, 1970, 1, 1⟩] := by
  refine ⟨?_, ?_, ?_⟩
  · have h := C7_step_bound 0 100000
    rw [h, if_pos (by norm_num)]
    exact congrArg Except.ok (by decide)
  · have h := C7_step_bound 0 100001
    rw [h, if_neg (by norm_num)]
  · have h := C7_step_bound 0 0
    rw [h, if_pos (by norm_num)]
    exact congrArg Except.ok (by decide)

/-- C8: the sleep pre-filter keeps exactly the rows whose three timestamps
all parse and whose end is strictly after the start; a session with
end equal to start is dropped before the merge, and a session with an
unparseable start is dropped. -/
theorem C8_sleep_prefilter :
    (∀ (df : List SleepRow) (r : SleepRow), r ∈ sleepPrefilter df ↔
        r ∈ df ∧ ∃ c s e : Int, r.created_at = some c ∧ r.start_date = some s ∧
          r.end_date = some e ∧ s < e) ∧
      sleepPrefilter [⟨some 0, some 300, some 300⟩] = [] ∧
      mergedIntervals [⟨some 0, some 300, some 300⟩] = [] ∧
      sleepPrefilter [⟨some 0, none, some 300⟩] = [] :=
  ⟨fun df r => mem_sleepPrefilter df r, rfl, rfl, rfl⟩

/-- C8 (witness): a session with a positive duration and all timestamps
parseable survives the pre-filter. -/
theorem C8_witness :
    (⟨some 0, some 10, some 20⟩ : SleepRow) ∈ sleepPrefilter [⟨some 0, some 10, some 20⟩] :=
  (C8_sleep_prefilter.1 _ _).mpr ⟨by simp, 0, 10, 20, rfl, rfl, rfl, by norm_num⟩

/-- C9 (counterexample): a run whose step stage raises (non-numeric count)
logs the error and never reaches the elapsed-time print — the time is not
reported on failure, contradicting the claim. -/
theorem C9_counterexample :
    mainRun [] [] [⟨some 0, some 0, some 3600⟩] [⟨some 0, none⟩] = ⟨false, true⟩ := rfl

/-- C9 (amended): the elapsed time is reported exactly when every stage of
the try block succeeds; on any stage exception only the error is logged and
the time print is skipped. -/
theorem C9_time_reporting (hIn : List HeartRow) (rIn : List RespRow)
    (sIn : List SleepRow) (stIn : List StepRow) :
    (mainRun hIn rIn sIn stIn).time_reported =
        (exceptOk (transform_sleep_data sIn) && exceptOk (transform_step_data stIn)) ∧
      (mainRun hIn rIn sIn stIn).error_logged =
        !(exceptOk (transform_sleep_data sIn) && exceptOk (transform_step_data stIn)) := by
  cases hs : transform_sleep_data sIn <;> cases hst : transform_step_data stIn <;>
    simp [mainRun, etlJob, exceptOk, hs, hst]

/-- C9 (witness): a fully successful run reports the elapsed time. -/
theorem C9_witness :
    (mainRun [] [] [⟨some 0, some 0, some 3600⟩] []).time_reported = true := by
  have h := (C9_time_reporting [] [] [⟨some 0, some 0, some 3600⟩] []).1
  rw [h]
  rfl

/-- C10: the generator yields exactly one built row per `Record` element
whose type matches the filter (the builders are total, so none is skipped),
and a missing `value` attribute reaches the output as the string `'0'`
while a missing `creationDate` becomes the empty string. -/
theorem C10_generate_rows :
    (∀ (elems : List Element) (filt : String),
        generate_rows filt heart_row elems =
          (elems.filter (recordMatches filt)).map heart_row) ∧
      (∀ e : Element, attribFind e valueKey = none → (heart_row e).2 = zeroDefault) ∧
      (∀ e : Element, attribFind e creationKey = none → (heart_row e).1 = emptyDefault) := by
  refine ⟨fun elems filt => generate_rows_eq filt heart_row elems, ?_, ?_⟩
  · intro e h
    simp [heart_row, attribGet, h]
  · intro e h
    simp [heart_row, attribGet, h]

/-- C10 (witness): a matching record with no attributes beyond its type
yields exactly one row, with the default timestamp and value strings. -/
theorem C10_witness :
    generate_rows heartTypeStr heart_row [⟨recordTag, [(typeKey, heartTypeStr)]⟩] =
      [(emptyDefault, zeroDefault)] := by
  rw [C10_generate_rows.1]
  rfl
